import Mathlib

/-!
Shallow embedding of the chatty-buddy voice-chat server's request
orchestration pipeline (the Fastify `POST /api/chat` handler and its three
stage helpers `transcribeAudio`, `generateLLMResponse`, `synthesizeSpeech`).

Bytes are modelled as `Nat` (reduced mod 256 where encoding matters), audio
buffers as `List Nat`, and each external collaborator (STT, LLM, TTS) as a
function from its request to a `FetchResult`: either a 2xx response with a
parsed body, a non-2xx response with its error text (`response.ok` false in
the source), or a network-level rejection of the `fetch` call itself.

The handler is a pure function of the configuration, the collaborator
behaviours, a clock (the k-th call of `Date.now()` returns `clock k`) and
the optional uploaded multipart file.  Besides the outcome it records the
list of outbound calls attempted and the stage durations the source computes
for its log lines, so that claims about "zero outbound calls" and about the
timing arithmetic can be stated.
-/

namespace ChattyBuddy

/-- One byte of an audio payload, as a natural number. -/
abbrev Byte := Nat

/-- Result of one `fetch` to a collaborator: a 2xx response with parsed body
`β`, a non-2xx response carrying its status and error text (the source reads
`await response.text()` in that case), or a rejection of the `fetch`
promise itself (network-level transport failure). -/
inductive FetchResult (β : Type) where
  | ok (body : β)
  | httpError (status : Nat) (errText : String)
  | networkError (cause : String)
deriving DecidableEq, Repr

/-- Body of a successful STT response: `{ text: string }`. -/
structure STTResponse where
  text : String
deriving DecidableEq, Repr

/-- Body of a successful Ollama response: `{ response: string, done: boolean }`. -/
structure OllamaResponse where
  response : String
  done : Bool
deriving DecidableEq, Repr

/-- The JSON body `generateLLMResponse` sends to `POST <LLM_SERVICE_URL>/api/generate`:
`JSON.stringify({ model, prompt, system, stream: false })`. -/
structure OllamaRequest where
  model : String
  prompt : String
  system : String
  stream : Bool
deriving DecidableEq, Repr

/-- The JSON body `synthesizeSpeech` sends to `POST <TTS_SERVICE_URL>/synthesize`:
`JSON.stringify({ text })`. -/
structure TtsRequest where
  text : String
deriving DecidableEq, Repr

/-- The behaviours of the three external collaborators for one request. -/
structure Services where
  stt : List Byte → String → FetchResult STTResponse
  llm : OllamaRequest → FetchResult OllamaResponse
  tts : TtsRequest → FetchResult (List Byte)

/-- The read-once configuration the server derives from its environment:
`LLM_MODEL` and the hardcoded `SYSTEM_PROMPT`. -/
structure Config where
  llmModel : String
  systemPrompt : String
deriving DecidableEq, Repr

/-- The hardcoded system prompt constant of the server. -/
def SYSTEM_PROMPT : String :=
  "You are a friendly and helpful voice assistant. Keep your responses concise and conversational, as they will be spoken aloud. Aim for 1-3 sentences unless the user asks for more detail. Avoid using markdown, bullet points, or special formatting since your response will be converted to speech. Be natural and engaging."

/-- Default model name: `process.env.LLM_MODEL || "gemma3:4b"`. -/
def defaultLlmModel : String := "gemma3:4b"

/-- One outbound call attempted by the pipeline, with the request it carried. -/
inductive OutboundCall where
  | sttCall (audio : List Byte) (filename : String)
  | llmCall (req : OllamaRequest)
  | ttsCall (req : TtsRequest)
deriving DecidableEq, Repr

/-- The base64 alphabet used by `Buffer.toString("base64")` (RFC 4648). -/
def base64Alphabet : List Char :=
  "ABCDEFGHIJKLMNOPQRSTUVWXYZabcdefghijklmnopqrstuvwxyz0123456789+/".toList

/-- The `n`-th character of the base64 alphabet. -/
def base64Char (n : Nat) : Char := base64Alphabet.getD n 'A'

/-- RFC 4648 base64 with padding, as produced by `Buffer.toString("base64")`.
Bytes are reduced mod 256 for totality. -/
def base64Encode : List Byte → String
  | [] => ""
  | [b1] =>
      let n := (b1 % 256) * 65536
      String.mk [base64Char (n / 262144 % 64), base64Char (n / 4096 % 64), '=', '=']
  | [b1, b2] =>
      let n := (b1 % 256) * 65536 + (b2 % 256) * 256
      String.mk [base64Char (n / 262144 % 64), base64Char (n / 4096 % 64),
                 base64Char (n / 64 % 64), '=']
  | b1 :: b2 :: b3 :: rest =>
      let n := (b1 % 256) * 65536 + (b2 % 256) * 256 + (b3 % 256)
      String.mk [base64Char (n / 262144 % 64), base64Char (n / 4096 % 64),
                 base64Char (n / 64 % 64), base64Char (n % 64)] ++ base64Encode rest

/-- `transcribeAudio(audioBuffer, filename)`: one `fetch` of
`POST <STT_SERVICE_URL>/transcribe` with the audio as multipart form data.
On a non-2xx response it throws `STT service error: <body>`; a rejected
`fetch` propagates its own cause; on success it returns `data.text`.
The second component is the outbound call the function always attempts. -/
def transcribeAudio (svc : Services) (audioBuffer : List Byte) (filename : String) :
    Except String String × OutboundCall :=
  (match svc.stt audioBuffer filename with
    | .ok data => .ok data.text
    | .httpError _ error => .error ("STT service error: " ++ error)
    | .networkError cause => .error cause,
   .sttCall audioBuffer filename)

/-- The request body `generateLLMResponse` builds:
`{ model: LLM_MODEL, prompt: userMessage, system: SYSTEM_PROMPT, stream: false }`. -/
def llmRequest (cfg : Config) (userMessage : String) : OllamaRequest :=
  { model := cfg.llmModel, prompt := userMessage, system := cfg.systemPrompt, stream := false }

/-- `generateLLMResponse(userMessage)`: one `fetch` of
`POST <LLM_SERVICE_URL>/api/generate` with the JSON body above.
On a non-2xx response it throws `LLM service error: <body>`; a rejected
`fetch` propagates its own cause; on success it returns `data.response`. -/
def generateLLMResponse (cfg : Config) (svc : Services) (userMessage : String) :
    Except String String × OutboundCall :=
  (match svc.llm (llmRequest cfg userMessage) with
    | .ok data => .ok data.response
    | .httpError _ error => .error ("LLM service error: " ++ error)
    | .networkError cause => .error cause,
   .llmCall (llmRequest cfg userMessage))

/-- `synthesizeSpeech(text)`: one `fetch` of `POST <TTS_SERVICE_URL>/synthesize`
with body `JSON.stringify({ text })`.  On a non-2xx response it throws
`TTS service error: <body>`; a rejected `fetch` propagates its own cause;
on success it returns the raw bytes of the response body. -/
def synthesizeSpeech (svc : Services) (text : String) :
    Except String (List Byte) × OutboundCall :=
  (match svc.tts ⟨text⟩ with
    | .ok bytes => .ok bytes
    | .httpError _ error => .error ("TTS service error: " ++ error)
    | .networkError cause => .error cause,
   .ttsCall ⟨text⟩)

/-- The JSON body the handler returns on success:
`{ transcription, response, audioBase64 }`. -/
structure ChatResponse where
  transcription : String
  response : String
  audioBase64 : String
deriving DecidableEq, Repr

/-- An error surfaced to the HTTP caller: the status code of the reply and
the thrown error's message.  `reply.code(400)` before a `throw` yields 400;
an error thrown with no code set is surfaced by Fastify as 500. -/
structure ErrorOutcome where
  status : Nat
  message : String
deriving DecidableEq, Repr

/-- The uploaded multipart file as the handler sees it: `data.filename`
(absent when the client sent none) and the buffered bytes. -/
structure UploadedFile where
  filename : Option String
  buffer : List Byte
deriving DecidableEq, Repr

/-- JavaScript `a || b` on an optional string: `undefined` and `""` are
falsy, so both fall back to the default. -/
def jsStringOr (a : Option String) (b : String) : String :=
  match a with
  | none => b
  | some s => if s = "" then b else s

/-- The characters `String.prototype.trim` strips: the ECMAScript WhiteSpace
and LineTerminator productions (tab, LF, VT, FF, CR, space, NBSP, ZWNBSP,
the Unicode Space_Separator category, LS, PS). -/
def isJsWhitespace (c : Char) : Bool :=
  c = ' ' || c = '\t' || c = '\n' || c = '\u000B' || c = '\u000C' || c = '\r' ||
  c = '\u00A0' || c = '\u1680' ||
  ('\u2000' ≤ c && c ≤ '\u200A') ||
  c = '\u2028' || c = '\u2029' || c = '\u202F' || c = '\u205F' ||
  c = '\u3000' || c = '\uFEFF'

/-- JavaScript `s.trim()`: strip `isJsWhitespace` characters from both ends. -/
def jsTrim (s : String) : String :=
  ⟨((s.toList.dropWhile isJsWhitespace).reverse.dropWhile isJsWhitespace).reverse⟩

/-- Everything one evaluation of the handler produces: the HTTP outcome, the
outbound calls attempted in order, and the stage/total durations the source
computes (each is `none` when control flow never reaches the line computing
it; the source only logs them, none are put in the response body). -/
structure RunResult where
  outcome : Except ErrorOutcome ChatResponse
  calls : List OutboundCall
  sttDurationMs : Option Nat
  llmDurationMs : Option Nat
  ttsDurationMs : Option Nat
  totalDurationMs : Option Nat
deriving Repr

/-- The `POST /api/chat` handler.  `clock k` is the value of the k-th call
of `Date.now()` during the request (index 0 is `startTime`, 1 is
`transcriptionStart`, 2 the transcription log line, 3 `llmStart`, 4 the LLM
log line, 5 `ttsStart`, 6 the TTS log line, 7 `totalTime`).  `file` is the
result of `await request.file()`, `none` when no file field was sent. -/
def chatHandler (cfg : Config) (svc : Services) (clock : Nat → Nat)
    (file : Option UploadedFile) : RunResult :=
  let startTime := clock 0
  match file with
  | none =>
      { outcome := .error ⟨400, "No audio file provided"⟩
        calls := []
        sttDurationMs := none, llmDurationMs := none
        ttsDurationMs := none, totalDurationMs := none }
  | some data =>
      let audioBuffer := data.buffer
      let filename := jsStringOr data.filename "audio.webm"
      let transcriptionStart := clock 1
      let sttStep := transcribeAudio svc audioBuffer filename
      match sttStep.1 with
      | .error msg =>
          { outcome := .error ⟨500, msg⟩
            calls := [sttStep.2]
            sttDurationMs := none, llmDurationMs := none
            ttsDurationMs := none, totalDurationMs := none }
      | .ok transcription =>
          let sttDur := clock 2 - transcriptionStart
          if jsTrim transcription = "" then
            { outcome := .error ⟨400, "Could not transcribe audio - no speech detected"⟩
              calls := [sttStep.2]
              sttDurationMs := some sttDur, llmDurationMs := none
              ttsDurationMs := none, totalDurationMs := none }
          else
            let llmStart := clock 3
            let llmStep := generateLLMResponse cfg svc transcription
            match llmStep.1 with
            | .error msg =>
                { outcome := .error ⟨500, msg⟩
                  calls := [sttStep.2, llmStep.2]
                  sttDurationMs := some sttDur, llmDurationMs := none
                  ttsDurationMs := none, totalDurationMs := none }
            | .ok llmResponse =>
                let llmDur := clock 4 - llmStart
                let ttsStart := clock 5
                let ttsStep := synthesizeSpeech svc llmResponse
                match ttsStep.1 with
                | .error msg =>
                    { outcome := .error ⟨500, msg⟩
                      calls := [sttStep.2, llmStep.2, ttsStep.2]
                      sttDurationMs := some sttDur, llmDurationMs := some llmDur
                      ttsDurationMs := none, totalDurationMs := none }
                | .ok audioResponse =>
                    let ttsDur := clock 6 - ttsStart
                    let audioBase64 := base64Encode audioResponse
                    let totalTime := clock 7 - startTime
                    { outcome := .ok
                        { transcription := transcription
                          response := llmResponse
                          audioBase64 := audioBase64 }
                      calls := [sttStep.2, llmStep.2, ttsStep.2]
                      sttDurationMs := some sttDur, llmDurationMs := some llmDur
                      ttsDurationMs := some ttsDur, totalDurationMs := some totalTime }

/-- A JSON value, as far as the response bodies of this server need. -/
inductive Json where
  | str (s : String)
  | num (n : Nat)
  | obj (fields : List (String × Json))
deriving Repr

/-- Serialization of the success body, mirroring the object literal the
handler returns: `return { transcription, response, audioBase64 }`. -/
def ChatResponse.toJson (r : ChatResponse) : Json :=
  .obj [("transcription", .str r.transcription),
        ("response", .str r.response),
        ("audioBase64", .str r.audioBase64)]

/-- The top-level keys of a JSON object. -/
def Json.topKeys : Json → List String
  | .obj fields => fields.map Prod.fst
  | _ => []

/-- Whether a JSON value is an object with top-level key `k`. -/
def Json.hasKey (j : Json) (k : String) : Bool := j.topKeys.contains k

/-- The LLM request bodies among a list of outbound calls, in order. -/
def llmCallRequests (calls : List OutboundCall) : List OllamaRequest :=
  calls.filterMap fun c =>
    match c with
    | .llmCall req => some req
    | _ => none

/-- Whether an outbound call goes to the LLM or the TTS collaborator
(pipeline stages 2 and 3). -/
def OutboundCall.isLlmOrTts : OutboundCall → Bool
  | .sttCall _ _ => false
  | .llmCall _ => true
  | .ttsCall _ => true

/-- Whether an outbound call goes to the TTS collaborator. -/
def OutboundCall.isTts : OutboundCall → Bool
  | .ttsCall _ => true
  | _ => false

/-- The three pipeline stages. -/
inductive Stage where
  | stt
  | llm
  | tts
deriving DecidableEq, Repr

/-- A way one collaborator can fail: a non-2xx HTTP response with its status
and body text, or a network-level rejection of the `fetch` itself. -/
inductive StageFailure where
  | http (status : Nat) (errText : String)
  | net (cause : String)
deriving DecidableEq, Repr

/-- The prefix the source prepends to a non-2xx collaborator response body
when it throws (`STT service error: ...` etc.). -/
def stageErrorLabel : Stage → String
  | .stt => "STT service error: "
  | .llm => "LLM service error: "
  | .tts => "TTS service error: "

/-- The `FetchResult` a failing collaborator produces. -/
def StageFailure.toFetch {β : Type} : StageFailure → FetchResult β
  | .http s e => .httpError s e
  | .net c => .networkError c

/-- Override one collaborator so that every call to it fails as `f`. -/
def setStageFailure (svc : Services) (st : Stage) (f : StageFailure) : Services :=
  match st with
  | .stt => { svc with stt := fun _ _ => f.toFetch }
  | .llm => { svc with llm := fun _ => f.toFetch }
  | .tts => { svc with tts := fun _ => f.toFetch }

/-- The message the pipeline's stage helper throws when stage `st` fails as
`f`: the stage-prefixed upstream body for a non-2xx response, the bare cause
for a rejected `fetch`. -/
def surfacedMessage (st : Stage) : StageFailure → String
  | .http _ e => stageErrorLabel st ++ e
  | .net c => c

/-- Collaborators that always succeed with fixed outputs. -/
def constServices (t r : String) (d : Bool) (bytes : List Byte) : Services :=
  { stt := fun _ _ => .ok ⟨t⟩
    llm := fun _ => .ok ⟨r, d⟩
    tts := fun _ => .ok bytes }

/-- A concrete all-success collaborator triple used to evaluate the handler
on closed inputs. -/
def demoServices : Services :=
  constServices "hello there" "Hi! How can I help?" true [1, 2, 3, 4]

/-- A concrete strictly increasing clock. -/
def demoClock (k : Nat) : Nat := 10 * k

/-- A concrete configuration (the server's defaults). -/
def demoConfig : Config := ⟨defaultLlmModel, SYSTEM_PROMPT⟩

/-- Collaborators whose STT returns a whitespace-only transcript. -/
def demoServicesSilentStt : Services :=
  { demoServices with stt := fun _ _ => .ok ⟨" \t "⟩ }

/-- Collaborators whose LLM answers with HTTP 500. -/
def demoServicesLlmHttpFail : Services :=
  { demoServices with llm := fun _ => .httpError 500 "model not found" }

end ChattyBuddy

namespace ChattyBuddy

/-- Helper: whenever a file field is present, the first outbound call of the
pipeline is the STT upload carrying the buffered bytes and the resolved
filename (`data.filename || "audio.webm"`). -/
theorem chatHandler_calls_head (cfg : Config) (svc : Services) (clock : Nat → Nat)
    (f : UploadedFile) :
    (chatHandler cfg svc clock (some f)).calls.head? =
      some (.sttCall f.buffer (jsStringOr f.filename "audio.webm")) := by
  obtain ⟨fn, buf⟩ := f
  rcases hs : svc.stt buf (jsStringOr fn "audio.webm") with b | ⟨s, e⟩ | c <;>
    simp [chatHandler, transcribeAudio, generateLLMResponse, synthesizeSpeech, hs]
  by_cases htr : jsTrim b.text = ""
  · simp [htr]
  · simp only [if_neg htr]
    rcases svc.llm (llmRequest cfg b.text) with bb | ⟨ss, ee⟩ | cc <;> simp
    rcases svc.tts ⟨bb.response⟩ with x | ⟨y, z⟩ | w <;> simp

/-- C1: when STT, LLM and TTS all succeed and the transcript is not empty or
whitespace-only, the handler returns the STT text as `transcription`, the
LLM text as `response`, and the base64 encoding of the TTS bytes as
`audioBase64`, all unmodified. -/
theorem chat_success_returns_collaborator_outputs_exactly
    (cfg : Config) (svc : Services) (clock : Nat → Nat)
    (fn : Option String) (audio : List Byte) (t r : String) (d : Bool) (bytes : List Byte)
    (hstt : svc.stt audio (jsStringOr fn "audio.webm") = .ok ⟨t⟩)
    (ht : jsTrim t ≠ "")
    (hllm : svc.llm (llmRequest cfg t) = .ok ⟨r, d⟩)
    (htts : svc.tts ⟨r⟩ = .ok bytes) :
    (chatHandler cfg svc clock (some ⟨fn, audio⟩)).outcome =
      .ok ⟨t, r, base64Encode bytes⟩ := by
  simp [chatHandler, transcribeAudio, generateLLMResponse, synthesizeSpeech,
        hstt, hllm, htts, ht]

/-- C1 witness: the success theorem applied to concrete collaborators. -/
theorem chat_success_returns_collaborator_outputs_exactly_witness :
    (chatHandler demoConfig demoServices demoClock
        (some ⟨some "clip.wav", [9, 9]⟩)).outcome =
      .ok ⟨"hello there", "Hi! How can I help?", base64Encode [1, 2, 3, 4]⟩ :=
  chat_success_returns_collaborator_outputs_exactly demoConfig demoServices demoClock
    (some "clip.wav") [9, 9] "hello there" "Hi! How can I help?" true [1, 2, 3, 4]
    rfl (by decide) rfl rfl

/-- C2: when STT succeeds but the transcript trims to the empty string, the
handler fails with status 400 and the no-speech message (a client-facing 4xx,
unlike the 500 used for stage failures), and zero outbound calls are made to
the LLM and TTS collaborators. -/
theorem no_speech_rejected_with_400_and_no_llm_tts_calls
    (cfg : Config) (svc : Services) (clock : Nat → Nat)
    (fn : Option String) (audio : List Byte) (t : String)
    (hstt : svc.stt audio (jsStringOr fn "audio.webm") = .ok ⟨t⟩)
    (ht : jsTrim t = "") :
    (chatHandler cfg svc clock (some ⟨fn, audio⟩)).outcome =
      .error ⟨400, "Could not transcribe audio - no speech detected"⟩
    ∧ ((chatHandler cfg svc clock (some ⟨fn, audio⟩)).calls.countP
        (fun c => c.isLlmOrTts)) = 0 := by
  constructor <;>
    simp [chatHandler, transcribeAudio, hstt, ht, OutboundCall.isLlmOrTts]

/-- C2 witness: a whitespace-only transcript rejected at a concrete input. -/
theorem no_speech_rejected_with_400_and_no_llm_tts_calls_witness :
    (chatHandler demoConfig demoServicesSilentStt demoClock
        (some ⟨some "clip.wav", [9, 9]⟩)).outcome =
      .error ⟨400, "Could not transcribe audio - no speech detected"⟩
    ∧ ((chatHandler demoConfig demoServicesSilentStt demoClock
        (some ⟨some "clip.wav", [9, 9]⟩)).calls.countP
        (fun c => c.isLlmOrTts)) = 0 :=
  no_speech_rejected_with_400_and_no_llm_tts_calls demoConfig demoServicesSilentStt
    demoClock (some "clip.wav") [9, 9] " \t " rfl (by decide)

/-- C3: when the LLM collaborator answers with a non-2xx status, the handler
fails with the message `LLM service error: <body>` (fault attributed to the
LLM stage) and the TTS collaborator is never invoked. -/
theorem llm_http_failure_attributed_and_no_tts_call
    (cfg : Config) (svc : Services) (clock : Nat → Nat)
    (fn : Option String) (audio : List Byte) (t : String) (s : Nat) (e : String)
    (hstt : svc.stt audio (jsStringOr fn "audio.webm") = .ok ⟨t⟩)
    (ht : jsTrim t ≠ "")
    (hllm : svc.llm (llmRequest cfg t) = .httpError s e) :
    (chatHandler cfg svc clock (some ⟨fn, audio⟩)).outcome =
      .error ⟨500, "LLM service error: " ++ e⟩
    ∧ ((chatHandler cfg svc clock (some ⟨fn, audio⟩)).calls.countP
        (fun c => c.isTts)) = 0 := by
  constructor <;>
    simp [chatHandler, transcribeAudio, generateLLMResponse, synthesizeSpeech,
          hstt, ht, hllm, OutboundCall.isTts]

/-- C3 witness: an HTTP 500 from the LLM at a concrete input. -/
theorem llm_http_failure_attributed_and_no_tts_call_witness :
    (chatHandler demoConfig demoServicesLlmHttpFail demoClock
        (some ⟨some "clip.wav", [9, 9]⟩)).outcome =
      .error ⟨500, "LLM service error: " ++ "model not found"⟩
    ∧ ((chatHandler demoConfig demoServicesLlmHttpFail demoClock
        (some ⟨some "clip.wav", [9, 9]⟩)).calls.countP
        (fun c => c.isTts)) = 0 :=
  llm_http_failure_attributed_and_no_tts_call demoConfig demoServicesLlmHttpFail
    demoClock (some "clip.wav") [9, 9] "hello there" 500 "model not found"
    rfl (by decide) rfl

/-- C4 counterexample: a concrete full-success request whose returned body is
exactly `{transcription, response, audioBase64}` with no `metrics` key, so
the claimed per-stage metrics object is not part of the response. -/
theorem success_body_has_no_metrics_key_counterexample :
    (chatHandler demoConfig demoServices demoClock
        (some ⟨some "clip.wav", [7, 7, 7]⟩)).outcome =
      .ok ⟨"hello there", "Hi! How can I help?", "AQIDBA=="⟩
    ∧ (ChatResponse.toJson
        ⟨"hello there", "Hi! How can I help?", "AQIDBA=="⟩).hasKey "metrics" = false :=
  ⟨rfl, by decide⟩

/-- C4 amended: on full pipeline success the body contains exactly the keys
`transcription`, `response` and `audioBase64`; the handler does time each
stage individually and computes a total, but only for its log lines — the
durations are not part of the response body. -/
theorem success_body_fields_and_stage_timings
    (cfg : Config) (svc : Services) (clock : Nat → Nat)
    (fn : Option String) (audio : List Byte) (t r : String) (d : Bool) (bytes : List Byte)
    (hstt : svc.stt audio (jsStringOr fn "audio.webm") = .ok ⟨t⟩)
    (ht : jsTrim t ≠ "")
    (hllm : svc.llm (llmRequest cfg t) = .ok ⟨r, d⟩)
    (htts : svc.tts ⟨r⟩ = .ok bytes) :
    (chatHandler cfg svc clock (some ⟨fn, audio⟩)).outcome =
      .ok ⟨t, r, base64Encode bytes⟩
    ∧ (ChatResponse.toJson ⟨t, r, base64Encode bytes⟩).topKeys =
        ["transcription", "response", "audioBase64"]
    ∧ (chatHandler cfg svc clock (some ⟨fn, audio⟩)).sttDurationMs.isSome = true
    ∧ (chatHandler cfg svc clock (some ⟨fn, audio⟩)).llmDurationMs.isSome = true
    ∧ (chatHandler cfg svc clock (some ⟨fn, audio⟩)).ttsDurationMs.isSome = true
    ∧ (chatHandler cfg svc clock (some ⟨fn, audio⟩)).totalDurationMs.isSome = true := by
  refine ⟨?_, rfl, ?_, ?_, ?_, ?_⟩ <;>
    simp [chatHandler, transcribeAudio, generateLLMResponse, synthesizeSpeech,
          hstt, hllm, htts, ht, ChatResponse.toJson, Json.topKeys]

/-- C4 amended witness: the amended statement at a concrete input. -/
theorem success_body_fields_and_stage_timings_witness :
    (chatHandler demoConfig demoServices demoClock
        (some ⟨some "clip.wav", [9, 9]⟩)).outcome =
      .ok ⟨"hello there", "Hi! How can I help?", base64Encode [1, 2, 3, 4]⟩
    ∧ (ChatResponse.toJson
        ⟨"hello there", "Hi! How can I help?", base64Encode [1, 2, 3, 4]⟩).topKeys =
        ["transcription", "response", "audioBase64"]
    ∧ (chatHandler demoConfig demoServices demoClock
        (some ⟨some "clip.wav", [9, 9]⟩)).sttDurationMs.isSome = true
    ∧ (chatHandler demoConfig demoServices demoClock
        (some ⟨some "clip.wav", [9, 9]⟩)).llmDurationMs.isSome = true
    ∧ (chatHandler demoConfig demoServices demoClock
        (some ⟨some "clip.wav", [9, 9]⟩)).ttsDurationMs.isSome = true
    ∧ (chatHandler demoConfig demoServices demoClock
        (some ⟨some "clip.wav", [9, 9]⟩)).totalDurationMs.isSome = true :=
  success_body_fields_and_stage_timings demoConfig demoServices demoClock
    (some "clip.wav") [9, 9] "hello there" "Hi! How can I help?" true [1, 2, 3, 4]
    rfl (by decide) rfl rfl

/-- C5 counterexample: a concrete successful response carries no `metrics`
key at all, so no `metrics.total.durationMs` is reported to the caller. -/
theorem no_reported_total_duration_counterexample :
    (chatHandler demoConfig demoServices demoClock
        (some ⟨some "clip.webm", [5]⟩)).outcome =
      .ok ⟨"hello there", "Hi! How can I help?", "AQIDBA=="⟩
    ∧ (ChatResponse.toJson
        ⟨"hello there", "Hi! How can I help?", "AQIDBA=="⟩).topKeys.contains
        "metrics" = false :=
  ⟨rfl, by decide⟩

/-- C5 amended: the durations the handler computes (for its log lines, not
the response body) satisfy the claimed inequality — under a monotone clock
the computed total wall-clock duration is at least the sum of the three
computed stage durations. -/
theorem computed_total_duration_ge_sum_of_stage_durations
    (cfg : Config) (svc : Services) (clock : Nat → Nat)
    (fn : Option String) (audio : List Byte) (t r : String) (d : Bool) (bytes : List Byte)
    (hstt : svc.stt audio (jsStringOr fn "audio.webm") = .ok ⟨t⟩)
    (ht : jsTrim t ≠ "")
    (hllm : svc.llm (llmRequest cfg t) = .ok ⟨r, d⟩)
    (htts : svc.tts ⟨r⟩ = .ok bytes)
    (hmono : ∀ i j : Nat, i ≤ j → clock i ≤ clock j) :
    ∃ a b c T : Nat,
      (chatHandler cfg svc clock (some ⟨fn, audio⟩)).sttDurationMs = some a
      ∧ (chatHandler cfg svc clock (some ⟨fn, audio⟩)).llmDurationMs = some b
      ∧ (chatHandler cfg svc clock (some ⟨fn, audio⟩)).ttsDurationMs = some c
      ∧ (chatHandler cfg svc clock (some ⟨fn, audio⟩)).totalDurationMs = some T
      ∧ a + b + c ≤ T := by
  refine ⟨clock 2 - clock 1, clock 4 - clock 3, clock 6 - clock 5, clock 7 - clock 0,
    ?_, ?_, ?_, ?_, ?_⟩
  · simp [chatHandler, transcribeAudio, generateLLMResponse, synthesizeSpeech,
          hstt, hllm, htts, ht]
  · simp [chatHandler, transcribeAudio, generateLLMResponse, synthesizeSpeech,
          hstt, hllm, htts, ht]
  · simp [chatHandler, transcribeAudio, generateLLMResponse, synthesizeSpeech,
          hstt, hllm, htts, ht]
  · simp [chatHandler, transcribeAudio, generateLLMResponse, synthesizeSpeech,
          hstt, hllm, htts, ht]
  · have h01 := hmono 0 1 (by omega)
    have h12 := hmono 1 2 (by omega)
    have h23 := hmono 2 3 (by omega)
    have h34 := hmono 3 4 (by omega)
    have h45 := hmono 4 5 (by omega)
    have h56 := hmono 5 6 (by omega)
    have h67 := hmono 6 7 (by omega)
    omega

/-- C5 amended witness: the inequality at a concrete monotone clock. -/
theorem computed_total_duration_ge_sum_of_stage_durations_witness :
    ∃ a b c T : Nat,
      (chatHandler demoConfig demoServices demoClock
          (some ⟨some "clip.wav", [9, 9]⟩)).sttDurationMs = some a
      ∧ (chatHandler demoConfig demoServices demoClock
          (some ⟨some "clip.wav", [9, 9]⟩)).llmDurationMs = some b
      ∧ (chatHandler demoConfig demoServices demoClock
          (some ⟨some "clip.wav", [9, 9]⟩)).ttsDurationMs = some c
      ∧ (chatHandler demoConfig demoServices demoClock
          (some ⟨some "clip.wav", [9, 9]⟩)).totalDurationMs = some T
      ∧ a + b + c ≤ T :=
  computed_total_duration_ge_sum_of_stage_durations demoConfig demoServices demoClock
    (some "clip.wav") [9, 9] "hello there" "Hi! How can I help?" true [1, 2, 3, 4]
    rfl (by decide) rfl rfl
    (fun i j h => by simp only [demoClock]; omega)

/-- C6: with no file field at all the handler fails with status 400 and the
missing-input message, and the list of outbound calls is empty — none of the
three collaborators is contacted. -/
theorem missing_file_rejected_before_any_outbound_call
    (cfg : Config) (svc : Services) (clock : Nat → Nat) :
    (chatHandler cfg svc clock none).outcome = .error ⟨400, "No audio file provided"⟩
    ∧ (chatHandler cfg svc clock none).calls = [] :=
  ⟨rfl, rfl⟩

/-- C7 counterexample: with the LLM collaborator failing at transport level
with cause `connection refused`, the error surfaced to the caller is exactly
that cause; the string `LLM` occurs nowhere in it, so the surfaced error does
not identify the failing stage, contradicting the claim for transport
failures. -/
theorem transport_failure_message_lacks_stage_identity :
    (chatHandler demoConfig
        (setStageFailure demoServices .llm (.net "connection refused"))
        demoClock (some ⟨some "clip.wav", [9, 9]⟩)).outcome =
      .error ⟨500, "connection refused"⟩
    ∧ ¬ ("LLM".toList <:+: "connection refused".toList) :=
  ⟨rfl, by decide⟩

/-- C7 amended: whichever stage fails, the pipeline aborts with status 500
and surfaces the upstream error text: for a non-2xx HTTP response the message
is the stage's label followed by the upstream body (identifying the failing
stage), while for a network-level transport failure the message is the bare
transport cause, surfaced with the same visibility but without stage
attribution. -/
theorem stage_failure_surfaced_status_and_message
    (cfg : Config) (clock : Nat → Nat) (fn : Option String)
    (audio : List Byte) (t r : String) (d : Bool) (bytes : List Byte)
    (ht : jsTrim t ≠ "") (st : Stage) (f : StageFailure) :
    (chatHandler cfg (setStageFailure (constServices t r d bytes) st f) clock
        (some ⟨fn, audio⟩)).outcome = .error ⟨500, surfacedMessage st f⟩
    ∧ (∀ s e, f = .http s e → surfacedMessage st f = stageErrorLabel st ++ e)
    ∧ (∀ c, f = .net c → surfacedMessage st f = c) := by
  refine ⟨?_, ?_, ?_⟩
  · cases st <;> cases f <;>
      simp [chatHandler, transcribeAudio, generateLLMResponse, synthesizeSpeech,
            setStageFailure, constServices, StageFailure.toFetch, surfacedMessage,
            stageErrorLabel, ht]
  · rintro s e rfl
    rfl
  · rintro c rfl
    rfl

/-- C7 amended witness: a TTS-stage HTTP failure at concrete inputs. -/
theorem stage_failure_surfaced_status_and_message_witness :
    (chatHandler demoConfig
        (setStageFailure (constServices "hello" "reply" true [1, 2]) .tts
          (.http 503 "synth backend down"))
        demoClock (some ⟨some "a.webm", [1]⟩)).outcome =
      .error ⟨500, surfacedMessage .tts (.http 503 "synth backend down")⟩
    ∧ (∀ s e, StageFailure.http 503 "synth backend down" = .http s e →
        surfacedMessage .tts (.http 503 "synth backend down") =
          stageErrorLabel .tts ++ e)
    ∧ (∀ c, StageFailure.http 503 "synth backend down" = .net c →
        surfacedMessage .tts (.http 503 "synth backend down") = c) :=
  stage_failure_surfaced_status_and_message demoConfig demoClock (some "a.webm")
    [1] "hello" "reply" true [1, 2] (by decide) .tts (.http 503 "synth backend down")

/-- C8: for the transcript the STT stage produced, the single outbound LLM
request of the run carries exactly the configured model, the transcript as
prompt, the configured system prompt, and `stream` equal to `false`. -/
theorem llm_outbound_request_body_exact
    (cfg : Config) (svc : Services) (clock : Nat → Nat)
    (fn : Option String) (audio : List Byte) (t : String)
    (hstt : svc.stt audio (jsStringOr fn "audio.webm") = .ok ⟨t⟩)
    (ht : jsTrim t ≠ "") :
    llmCallRequests (chatHandler cfg svc clock (some ⟨fn, audio⟩)).calls =
      [{ model := cfg.llmModel, prompt := t, system := cfg.systemPrompt, stream := false }] := by
  have hreq :
      ({ model := cfg.llmModel, prompt := t, system := cfg.systemPrompt, stream := false } :
        OllamaRequest) = llmRequest cfg t := rfl
  rw [hreq]
  rcases hl : svc.llm (llmRequest cfg t) with b | ⟨s, e⟩ | c
  · rcases ht2 : svc.tts ⟨b.response⟩ with x | ⟨y, z⟩ | w <;>
      simp [chatHandler, transcribeAudio, generateLLMResponse, synthesizeSpeech,
            llmCallRequests, hstt, ht, hl, ht2]
  · simp [chatHandler, transcribeAudio, generateLLMResponse, synthesizeSpeech,
          llmCallRequests, hstt, ht, hl]
  · simp [chatHandler, transcribeAudio, generateLLMResponse, synthesizeSpeech,
          llmCallRequests, hstt, ht, hl]

/-- C8 witness: the outbound request at a concrete run. -/
theorem llm_outbound_request_body_exact_witness :
    llmCallRequests (chatHandler demoConfig demoServices demoClock
        (some ⟨some "clip.wav", [9, 9]⟩)).calls =
      [{ model := demoConfig.llmModel, prompt := "hello there",
         system := demoConfig.systemPrompt, stream := false }] :=
  llm_outbound_request_body_exact demoConfig demoServices demoClock
    (some "clip.wav") [9, 9] "hello there" rfl (by decide)

/-- C9: when the uploaded file's filename is absent or empty, the STT upload
carries the default filename `audio.webm`; and the rest of the pipeline does
not depend on the filename — whenever the STT collaborator treats another
filename the same, the outcome is identical. -/
theorem missing_filename_defaults_and_pipeline_filename_independent
    (cfg : Config) (svc : Services) (clock : Nat → Nat)
    (audio : List Byte) (fn : Option String)
    (hfn : fn = none ∨ fn = some "") :
    (chatHandler cfg svc clock (some ⟨fn, audio⟩)).calls.head? =
      some (.sttCall audio "audio.webm")
    ∧ ∀ fn' : Option String,
        svc.stt audio (jsStringOr fn' "audio.webm") = svc.stt audio "audio.webm" →
        (chatHandler cfg svc clock (some ⟨fn', audio⟩)).outcome =
          (chatHandler cfg svc clock (some ⟨fn, audio⟩)).outcome := by
  have hj : jsStringOr fn "audio.webm" = "audio.webm" := by
    rcases hfn with rfl | rfl <;> rfl
  constructor
  · have h := chatHandler_calls_head cfg svc clock ⟨fn, audio⟩
    simpa [hj] using h
  · intro fn' hstt
    rcases hres : svc.stt audio "audio.webm" with b | ⟨s, e⟩ | c
    · by_cases htr : jsTrim b.text = ""
      · simp [chatHandler, transcribeAudio, hj, hstt, hres, htr]
      · simp only [chatHandler, transcribeAudio, generateLLMResponse, synthesizeSpeech,
          hj, hstt, hres, if_neg htr]
        rcases svc.llm (llmRequest cfg b.text) with bb | ⟨ss, ee⟩ | cc <;> simp
        rcases svc.tts ⟨bb.response⟩ with x | ⟨y, z⟩ | w <;> simp
    · simp [chatHandler, transcribeAudio, hj, hstt, hres]
    · simp [chatHandler, transcribeAudio, hj, hstt, hres]

/-- C9 witness: an absent filename resolves to `audio.webm` at a concrete
input, and a run with filename `x.wav` has the identical outcome. -/
theorem missing_filename_defaults_and_pipeline_filename_independent_witness :
    (chatHandler demoConfig demoServices demoClock
        (some ⟨none, [9, 9]⟩)).calls.head? =
      some (.sttCall [9, 9] "audio.webm")
    ∧ (chatHandler demoConfig demoServices demoClock
        (some ⟨some "x.wav", [9, 9]⟩)).outcome =
      (chatHandler demoConfig demoServices demoClock
        (some ⟨none, [9, 9]⟩)).outcome :=
  ⟨(missing_filename_defaults_and_pipeline_filename_independent demoConfig demoServices
      demoClock [9, 9] none (Or.inl rfl)).1,
   (missing_filename_defaults_and_pipeline_filename_independent demoConfig demoServices
      demoClock [9, 9] none (Or.inl rfl)).2 (some "x.wav") rfl⟩

/-- C10: a request whose file field holds a zero-byte payload is not rejected
as missing input: the STT collaborator is contacted with the empty buffer,
and the outcome is never the missing-input error. -/
theorem empty_audio_buffer_not_rejected_as_missing_input
    (cfg : Config) (svc : Services) (clock : Nat → Nat) (fn : Option String) :
    (chatHandler cfg svc clock (some ⟨fn, []⟩)).calls.head? =
      some (.sttCall [] (jsStringOr fn "audio.webm"))
    ∧ (chatHandler cfg svc clock (some ⟨fn, []⟩)).outcome ≠
        .error ⟨400, "No audio file provided"⟩ := by
  refine ⟨chatHandler_calls_head cfg svc clock ⟨fn, []⟩, ?_⟩
  rcases hs : svc.stt [] (jsStringOr fn "audio.webm") with b | ⟨s, e⟩ | c <;>
    simp [chatHandler, transcribeAudio, generateLLMResponse, synthesizeSpeech, hs]
  by_cases htr : jsTrim b.text = ""
  · simp [htr]
  · simp only [if_neg htr]
    rcases svc.llm (llmRequest cfg b.text) with bb | ⟨ss, ee⟩ | cc <;> simp
    rcases svc.tts ⟨bb.response⟩ with x | ⟨y, z⟩ | w <;> simp

end ChattyBuddy
